import Mathlib

/-!
Shallow embedding of the ftc-platform-mcp server core
(src/server.ts, src/lib/api-client.ts) in Lean 4.

The embedding models:
  * JSON values (the shapes flowing through the dispatcher),
  * the environment and the `VercelApiClient` constructor / `getStatus` /
    `makeRequest` / per-tool operations (api-client.ts),
  * the `validateConfiguration` startup check and server construction
    (server.ts constructor + main),
  * the tool list returned by the `ListToolsRequestSchema` handler,
  * the `CallToolRequestSchema` dispatcher (switch over tool names with
    the surrounding try/catch),
  * the `/mcp` request router and its per-request session handling
    (header lookup, initialize branch, the two 400 rejections), together
    with a small transition system over event traces for the temporal
    handshake property.

Effects are made explicit: fetch is a function parameter (the stubbed
upstream HTTP layer), the list of called URLs is threaded as a trace so
that "issues no upstream call" is expressible, `new Date().toISOString()`
is a `now : String` parameter, and thrown JS exceptions are `Except` /
error envelopes produced by the surrounding catch.
-/

namespace FtcMcp

/-- JSON values, as produced/consumed by the server. Objects keep their
field order (JS object semantics); lookup takes the first match. -/
inductive Json where
  | null
  | bool (b : Bool)
  | num (n : Int)
  | str (s : String)
  | arr (xs : List Json)
  | obj (fields : List (String × Json))

/-- JS truthiness of a JSON value (used for `if (!data.data)`). -/
def Json.truthy : Json → Bool
  | .null => false
  | .bool b => b
  | .num n => n != 0
  | .str s => s != ""
  | .arr _ => true
  | .obj _ => true

/-- Field lookup on a JSON object (`x.k` in JS); `none` off objects. -/
def Json.getField : Json → String → Option Json
  | .obj fs, k => fs.lookup k
  | _, _ => none

/-- JS object spread `{...v}`: an object contributes its fields, a string
contributes index-keyed one-character strings, other primitives contribute
nothing. -/
def spreadFields : Json → List (String × Json)
  | .obj fs => fs
  | .str s => s.data.enum.map fun p => (toString p.1, Json.str (toString p.2))
  | _ => []

/-- JS object literal `{...base, extra...}`: keys of `base` that reappear
in `extra` are overwritten in place, remaining `extra` keys are appended
in order. -/
def objMerge (base extra : List (String × Json)) : List (String × Json) :=
  (base.map fun p =>
    match extra.lookup p.1 with
    | some v => (p.1, v)
    | none => p)
  ++ extra.filter fun q => (base.lookup q.1).isNone

/-! ### api-client.ts: VercelApiClient -/

/-- The process environment: `none` models an unset variable, `some ""`
a variable set to the empty string. -/
abbrev Env := String → Option String

/-- Hard-coded fallback used by the constructor: `process.env.VERCEL_API_BASE_URL ?? 'http://localhost:3000/api/mastra'`. -/
def defaultBaseUrl : String := "http://localhost:3000/api/mastra"

structure ApiClient where
  baseUrl : String
  apiKey : String
deriving Repr, DecidableEq

/-- `new VercelApiClient()`: reads the two environment variables (`??` is
nullish coalescing, so a set-but-empty variable is kept as `""`), then
throws when the API key is falsy. -/
def VercelApiClient.construct (env : Env) : Except String ApiClient :=
  let baseUrl := (env "VERCEL_API_BASE_URL").getD defaultBaseUrl
  let apiKey := (env "MASTRA_API_KEY").getD ""
  if apiKey = "" then
    .error "MASTRA_API_KEY environment variable is required"
  else
    .ok { baseUrl := baseUrl, apiKey := apiKey }

structure ClientStatus where
  configured : Bool
  baseUrl : String
  hasApiKey : Bool
deriving Repr, DecidableEq

/-- `getStatus()`: `configured` is `Boolean(this.baseUrl && this.apiKey)`,
`hasApiKey` is `Boolean(this.apiKey)` (JS truthiness of strings is
non-emptiness). -/
def getStatus (c : ApiClient) : ClientStatus :=
  { configured := c.baseUrl != "" && c.apiKey != ""
  , baseUrl := c.baseUrl
  , hasApiKey := c.apiKey != "" }

/-- The `getStatus()` object as the JSON embedded into tool results. -/
def statusJson (c : ApiClient) : Json :=
  .obj [ ("configured", .bool (getStatus c).configured)
       , ("baseUrl", .str (getStatus c).baseUrl)
       , ("hasApiKey", .bool (getStatus c).hasApiKey) ]

/-- server.ts `validateConfiguration()`: throws when `!status.configured`. -/
def validateConfiguration (c : ApiClient) : Except String Unit :=
  if (getStatus c).configured then .ok ()
  else .error ("MCP Server configuration invalid: Base URL: "
    ++ (getStatus c).baseUrl
    ++ " Has API Key: " ++ toString (getStatus c).hasApiKey
    ++ " Please ensure VERCEL_API_BASE_URL and MASTRA_API_KEY are set in your environment.")

/-- The `FtcMcpServer` constructor as run by `main()`: builds the api
client (may throw) then validates configuration (may throw); any throw
makes `main` log and `process.exit(1)`, modelled as `.error`. -/
def FtcMcpServer.construct (env : Env) : Except String ApiClient :=
  match VercelApiClient.construct env with
  | .error e => .error e
  | .ok c =>
    match validateConfiguration c with
    | .error e => .error e
    | .ok _ => .ok c

/-- The parsed upstream body `ApiResponse<T>` (types/index.ts): `success`
boolean, optional `data` / `error` / `details`. -/
structure ApiResponse where
  success : Bool
  data : Option Json
  error : Option String
  details : Option String

/-- Outcome of one `fetch(url, ...)` as observed by `makeRequest`:
a thrown network error, a non-ok response (with its status line and body
text), or an ok response with a parsed `ApiResponse` body. -/
inductive FetchOutcome where
  | netErr (msg : String)
  | badStatus (status : Nat) (statusText : String) (bodyText : String)
  | okBody (body : ApiResponse)

/-- The stubbed HTTP layer: what one GET of each URL yields. -/
abbrev Fetch := String → FetchOutcome

/-- `makeRequest(endpoint)`: builds `baseUrl + endpoint`, performs the
GET, throws on non-ok status, on `!data.success`, and on falsy
`data.data`; otherwise returns `data.data`. -/
def makeRequest (c : ApiClient) (fetch : Fetch) (endpoint : String) : Except String Json :=
  match fetch (c.baseUrl ++ endpoint) with
  | .netErr m => .error m
  | .badStatus status statusText bodyText =>
      .error ("API request failed: " ++ toString status ++ " " ++ statusText
        ++ "\nResponse: " ++ bodyText)
  | .okBody body =>
      if !body.success then
        .error ("API returned error: " ++ body.error.getD "Unknown error"
          ++ "\nDetails: " ++ body.details.getD "No details")
      else
        match body.data with
        | some d => if d.truthy then .ok d else .error "API returned success but no data"
        | none => .error "API returned success but no data"

/-- `makeRequest` paired with the URL it fetches (every call performs
exactly one GET); the list is the upstream-call trace. -/
def makeRequestTraced (c : ApiClient) (fetch : Fetch) (endpoint : String) :
    Except String Json × List String :=
  (makeRequest c fetch endpoint, [c.baseUrl ++ endpoint])

/-- `testConnection()`. -/
def testConnection (c : ApiClient) (fetch : Fetch) : Except String Json × List String :=
  makeRequestTraced c fetch "/test"

/-- `getEventApplications(eventId)`: guards falsy `eventId` before any
fetch is issued. -/
def getEventApplications (c : ApiClient) (fetch : Fetch) (eventId : String) :
    Except String Json × List String :=
  if eventId = "" then (.error "eventId is required", [])
  else makeRequestTraced c fetch ("/events/" ++ eventId ++ "/applications")

/-- `getEventEvaluations(eventId)`. -/
def getEventEvaluations (c : ApiClient) (fetch : Fetch) (eventId : String) :
    Except String Json × List String :=
  if eventId = "" then (.error "eventId is required", [])
  else makeRequestTraced c fetch ("/events/" ++ eventId ++ "/evaluations")

/-- `getEvaluationCriteria(eventId)`. -/
def getEvaluationCriteria (c : ApiClient) (fetch : Fetch) (eventId : String) :
    Except String Json × List String :=
  if eventId = "" then (.error "eventId is required", [])
  else makeRequestTraced c fetch ("/events/" ++ eventId ++ "/criteria")

/-- `getApplicationQuestions(eventId)`. -/
def getApplicationQuestions (c : ApiClient) (fetch : Fetch) (eventId : String) :
    Except String Json × List String :=
  if eventId = "" then (.error "eventId is required", [])
  else makeRequestTraced c fetch ("/events/" ++ eventId ++ "/questions")

/-! ### server.ts: ListToolsRequestSchema handler (the Tool Registry) -/

structure ToolDescriptor where
  name : String
  description : String
  inputSchema : Json

/-- The JSON schema shared by the four event tools: one required string
parameter `eventId` with the given description. -/
def eventIdSchema (descr : String) : Json :=
  .obj [ ("type", .str "object")
       , ("properties", .obj [ ("eventId", .obj [ ("type", .str "string")
                                                , ("description", .str descr) ]) ])
       , ("required", .arr [.str "eventId"]) ]

/-- The `ListToolsRequestSchema` handler: a constant, in source order. -/
def listTools (_u : Unit) : List ToolDescriptor :=
  [ { name := "test_connection"
    , description := "Test connection to the FTC Platform API and verify the MCP server is working properly"
    , inputSchema := .obj [ ("type", .str "object")
                          , ("properties", .obj [])
                          , ("required", .arr []) ] }
  , { name := "get_event_applications"
    , description := "Get all applications for a specific event with complete data for AI analysis and ranking. Returns applicant information, responses to all questions, and metadata for evaluation."
    , inputSchema := eventIdSchema "The unique ID of the event to fetch applications for" }
  , { name := "get_event_evaluations"
    , description := "Get completed evaluations for applications in a specific event. Includes reviewer scores, comments, recommendations, and statistics for AI analysis of human evaluation patterns."
    , inputSchema := eventIdSchema "The unique ID of the event to fetch evaluations for" }
  , { name := "get_evaluation_criteria"
    , description := "Get evaluation criteria categorized for AI understanding. Provides scoring rubrics, weights, and guidelines used by human reviewers for consistent AI application scoring."
    , inputSchema := eventIdSchema "The unique ID of the event to get evaluation criteria for (provides context)" }
  , { name := "get_application_questions"
    , description := "Get application questions structure and metadata. Provides the complete question set, types, and requirements for understanding application data format and content."
    , inputSchema := eventIdSchema "The unique ID of the event to fetch application questions for" } ]

/-! ### server.ts: CallToolRequestSchema handler (the Tool Dispatcher) -/

/-- One content block of a tool result: `text` is the JSON value that the
handler `JSON.stringify`s into the text block, `isError` the error tag
(absent in JS on success, here `false`). -/
structure ToolResponse where
  text : Json
  isError : Bool

/-- The JSON the catch block returns:
`{success:false, error, tool, timestamp, details}`. -/
def errEnvelope (msg name now : String) : Json :=
  .obj [ ("success", .bool false)
       , ("error", .str msg)
       , ("tool", .str name)
       , ("timestamp", .str now)
       , ("details", .str ("Failed to execute MCP tool: " ++ name)) ]

/-- `request.params.arguments`: `none` when the field is absent
(`undefined`), otherwise the argument object (values as strings, as the
event tools cast them). -/
abbrev Args := Option (List (String × String))

/-- JS falsiness of the destructured `eventId` (`!eventId`): absent or
empty string. -/
def falsyEventId : Option String → Bool
  | none => true
  | some s => s == ""

/-- Message of the TypeError thrown by `const { eventId } = args` when
`args` is `undefined`; caught by the handler's catch block like any other
throw. -/
def typeErrorMsg : String := "Cannot destructure property eventId of undefined"

/-- The shared body of the four `get_*` switch cases: destructure
`eventId` from `args` (TypeError when `args` is `undefined`), throw
`eventId is required` when falsy, else call the client operation; the
surrounding catch turns any throw into an error envelope. -/
def callEventTool (now name : String)
    (op : String → Except String Json × List String) (args : Args) :
    ToolResponse × List String :=
  match args with
  | none => (⟨errEnvelope typeErrorMsg name now, true⟩, [])
  | some m =>
    let eid := m.lookup "eventId"
    if falsyEventId eid then
      (⟨errEnvelope "eventId is required" name now, true⟩, [])
    else
      match op (eid.getD "") with
      | (.ok j, calls) => (⟨j, false⟩, calls)
      | (.error msg, calls) => (⟨errEnvelope msg name now, true⟩, calls)

/-- The `CallToolRequestSchema` handler: switch on the tool name inside a
try/catch; `now` stands for `new Date().toISOString()`; the second
component is the upstream-call trace (URLs fetched). -/
def dispatch (c : ApiClient) (fetch : Fetch) (now name : String) (args : Args) :
    ToolResponse × List String :=
  if name = "test_connection" then
    match testConnection c fetch with
    | (.ok result, calls) =>
        (⟨.obj (objMerge (spreadFields result)
            [ ("mcpServer", .str "ftc-platform-mcp")
            , ("version", .str "1.0.0")
            , ("apiClient", statusJson c) ]), false⟩, calls)
    | (.error msg, calls) => (⟨errEnvelope msg name now, true⟩, calls)
  else if name = "get_event_applications" then
    callEventTool now name (getEventApplications c fetch) args
  else if name = "get_event_evaluations" then
    callEventTool now name (getEventEvaluations c fetch) args
  else if name = "get_evaluation_criteria" then
    callEventTool now name (getEvaluationCriteria c fetch) args
  else if name = "get_application_questions" then
    callEventTool now name (getApplicationQuestions c fetch) args
  else
    (⟨errEnvelope ("Unknown tool: " ++ name) name now, true⟩, [])

/-! ### server.ts: the /mcp Request Router and Session Store -/

/-- An incoming HTTP request on `/mcp` as the router inspects it: the
`mcp-session-id` header (`none` when absent), the HTTP method, and
whether `isInitializeRequest(req.body)` holds. -/
structure HttpReq where
  sessionHeader : Option String
  method : String
  isInit : Bool
deriving Repr, DecidableEq

/-- JS truthiness of the header value: `sessionId ? ... : undefined`
(an empty-string header behaves like an absent one). -/
def headerTruthy : Option String → Bool
  | none => false
  | some s => s != ""

/-- What the router does with one request: forward to an existing
transport, create a transport (new session id, init forwarded to it), or
reject with an HTTP status, JSON-RPC code and message. -/
inductive RouterOutcome where
  | forward (sid : String)
  | newSession (sid : String)
  | reject (status : Nat) (code : Int) (message : String)
deriving Repr, DecidableEq

/-- The session store: the key set of the `transports` map. -/
abbrev Store := List String

def sessionInvalidMsg : String := "Invalid session ID or session expired"

def sessionMissingMsg : String := "No session ID provided. Initialize first."

/-- The `/mcp` handler for one request: look the header up in the
transports map; `!transport && POST && isInitializeRequest` creates a
fresh transport (the session id generator returns `freshId` and
`onsessioninitialized` registers it); otherwise a truthy-but-unknown
header is rejected (status 400, code -32000) as invalid, an absent
header as missing;
a found transport handles the request. -/
def routeRequest (store : Store) (freshId : String) (req : HttpReq) :
    RouterOutcome × Store :=
  if !(headerTruthy req.sessionHeader && store.contains (req.sessionHeader.getD ""))
      && (req.method == "POST") && req.isInit then
    (.newSession freshId, store ++ [freshId])
  else if !(headerTruthy req.sessionHeader && store.contains (req.sessionHeader.getD ""))
      && headerTruthy req.sessionHeader then
    (.reject 400 (-32000) sessionInvalidMsg, store)
  else if !(headerTruthy req.sessionHeader && store.contains (req.sessionHeader.getD "")) then
    (.reject 400 (-32000) sessionMissingMsg, store)
  else
    (.forward (req.sessionHeader.getD ""), store)

/-- A router-level event: an incoming request (with the fresh id the
UUID generator would mint for it) or a transport close notification
(`transport.onclose` deletes the id from the map). -/
inductive Event where
  | request (freshId : String) (req : HttpReq)
  | closeSession (sid : String)

/-- One step of the router state machine: requests produce an outcome,
close notifications only delete from the store. -/
def step (store : Store) : Event → Store × Option RouterOutcome
  | .request freshId req =>
      let r := routeRequest store freshId req
      (r.2, some r.1)
  | .closeSession sid => (store.filter fun x => x != sid, none)

/-- Run the router over an event trace, collecting the per-event
outcomes (indices align with the event list). -/
def run : Store → List Event → Store × List (Option RouterOutcome)
  | store, [] => (store, [])
  | store, e :: es =>
      let r := step store e
      let rest := run r.1 es
      (rest.1, r.2 :: rest.2)

/-! ### Auxiliary definitions used in theorem statements -/

/-- The endpoint each of the four event tools passes to `makeRequest`. -/
def endpointFor (name eid : String) : String :=
  if name = "get_event_applications" then "/events/" ++ eid ++ "/applications"
  else if name = "get_event_evaluations" then "/events/" ++ eid ++ "/evaluations"
  else if name = "get_evaluation_criteria" then "/events/" ++ eid ++ "/criteria"
  else "/events/" ++ eid ++ "/questions"

/-- An environment with only the API key set. -/
def envKeyOnly : Env := fun k => if k = "MASTRA_API_KEY" then some "secret" else none

/-- An environment whose base-URL variable is set to the empty string
(set but empty, hence not nullish) and whose API key is present. -/
def envEmptyBase : Env := fun k =>
  if k = "VERCEL_API_BASE_URL" then some ""
  else if k = "MASTRA_API_KEY" then some "k" else none

/-- An environment with neither variable set. -/
def envBare : Env := fun _ => none

/-- An environment with both variables set to non-empty values. -/
def envFull : Env := fun k =>
  if k = "VERCEL_API_BASE_URL" then some "http://api"
  else if k = "MASTRA_API_KEY" then some "k" else none

/-- A concrete two-event trace: a handshake that mints session s1,
followed by a non-handshake request carrying s1. -/
def evsW : List Event :=
  [ .request "s1" { sessionHeader := none, method := "POST", isInit := true }
  , .request "x" { sessionHeader := some "s1", method := "POST", isInit := false } ]

/-- A concrete configured client used to instantiate theorems. -/
def cW : ApiClient := { baseUrl := "http://api", apiKey := "k" }

/-- A stub upstream that always throws a network error. -/
def fetchFail : Fetch := fun _ => .netErr "boom"

/-- A stub upstream that always returns a successful payload with a
fixed timestamp. -/
def fetchOk : Fetch := fun _ =>
  .okBody { success := true
          , data := some (.obj [ ("message", .str "ok")
                               , ("timestamp", .str "2024-01-01T00:00:00.000Z") ])
          , error := none
          , details := none }

/-! ### Helper lemmas -/

theorem lookup_append_or (l1 l2 : List (String × Json)) (k : String) :
    (l1 ++ l2).lookup k = (l1.lookup k).or (l2.lookup k) := by
  induction l1 with
  | nil => simp
  | cons a t ih =>
    obtain ⟨a1, a2⟩ := a
    simp only [List.cons_append, List.lookup_cons]
    cases h : (k == a1) <;> simp [ih]

theorem lookup_map_replace (base extra : List (String × Json)) (k : String) :
    ((base.map fun p =>
      match extra.lookup p.1 with
      | some v => (p.1, v)
      | none => p).lookup k)
      = match base.lookup k with
        | some v => some ((extra.lookup k).getD v)
        | none => none := by
  induction base with
  | nil => simp
  | cons a t ih =>
    obtain ⟨a1, a2⟩ := a
    simp only [List.map_cons, List.lookup_cons]
    cases h : (k == a1) with
    | false =>
      cases he : extra.lookup a1 <;> simp [List.lookup_cons, h, ih]
    | true =>
      have hk : k = a1 := by simpa using h
      subst hk
      cases he : extra.lookup k <;> simp [List.lookup_cons, he]

theorem lookup_filter_not_in_base (base extra : List (String × Json)) (k : String)
    (hb : base.lookup k = none) :
    ((extra.filter fun q => (base.lookup q.1).isNone).lookup k) = extra.lookup k := by
  induction extra with
  | nil => simp
  | cons a t ih =>
    obtain ⟨a1, a2⟩ := a
    by_cases hk : k = a1
    · subst hk
      simp [List.filter_cons, hb, List.lookup_cons]
    · have hbeq : (k == a1) = false := by simpa using hk
      cases hkeep : (base.lookup a1).isNone <;>
        simp [List.filter_cons, hkeep, List.lookup_cons, hbeq, ih]

/-- Lookup on a JS object-literal merge: an `extra` key wins, otherwise
the `base` key is visible. -/
theorem objMerge_lookup (base extra : List (String × Json)) (k : String) :
    (objMerge base extra).lookup k = (extra.lookup k).or (base.lookup k) := by
  unfold objMerge
  rw [lookup_append_or, lookup_map_replace]
  cases hb : base.lookup k with
  | none =>
    rw [lookup_filter_not_in_base base extra k hb]
    cases he : extra.lookup k <;> simp
  | some v =>
    cases he : extra.lookup k <;> simp

theorem routeRequest_forward_mem {store : Store} {f : String} {req : HttpReq} {sid : String}
    (h : (routeRequest store f req).1 = .forward sid) : sid ∈ store := by
  unfold routeRequest at h
  split at h
  · simp at h
  · split at h
    · simp at h
    · split at h
      · simp at h
      · rename_i h3
        have hfound : (headerTruthy req.sessionHeader
            && store.contains (req.sessionHeader.getD "")) = true := by
          revert h3
          cases headerTruthy req.sessionHeader
            && store.contains (req.sessionHeader.getD "") <;> simp
        have hmem : store.contains (req.sessionHeader.getD "") = true :=
          (Bool.and_eq_true _ _ |>.mp hfound).2
        have h2 : RouterOutcome.forward (req.sessionHeader.getD "") = .forward sid := h
        injection h2 with h2
        rw [← h2]
        simpa using hmem

theorem routeRequest_newSession {store : Store} {f : String} {req : HttpReq} {sid : String}
    (h : (routeRequest store f req).1 = .newSession sid) :
    sid = f ∧ req.method = "POST" ∧ req.isInit = true := by
  unfold routeRequest at h
  split at h
  · rename_i hc
    simp only [Bool.and_eq_true, beq_iff_eq] at hc
    have h2 : RouterOutcome.newSession f = .newSession sid := h
    injection h2 with h2
    exact ⟨h2.symm, hc.1.2, hc.2⟩
  · split at h
    · simp at h
    · split at h
      · simp at h
      · simp at h

theorem routeRequest_store_growth {store : Store} {f : String} {req : HttpReq} {sid : String}
    (h : sid ∈ (routeRequest store f req).2) :
    sid ∈ store ∨ (sid = f ∧ (routeRequest store f req).1 = .newSession f
      ∧ req.method = "POST" ∧ req.isInit = true) := by
  unfold routeRequest at h
  split at h
  · rename_i hc
    have hc2 := hc
    simp only [Bool.and_eq_true, beq_iff_eq] at hc2
    have h2 : sid ∈ store ++ [f] := h
    simp only [List.mem_append, List.mem_singleton] at h2
    rcases h2 with h2 | h2
    · exact Or.inl h2
    · refine Or.inr ⟨h2, ?_, hc2.1.2, hc2.2⟩
      unfold routeRequest
      rw [if_pos hc]
  · split at h
    · exact Or.inl h
    · split at h
      · exact Or.inl h
      · exact Or.inl h

/-- Every id in the output store of a step either was there before or was
minted by a `newSession` outcome of that very step, for an initialize
POST request. -/
theorem step_store_growth {store : Store} {e : Event} {sid : String}
    (h : sid ∈ (step store e).1) :
    sid ∈ store
    ∨ (∃ f r, e = .request f r ∧ f = sid ∧ r.method = "POST" ∧ r.isInit = true
        ∧ (step store e).2 = some (.newSession sid)) := by
  cases e with
  | request f r =>
    simp only [step] at h ⊢
    rcases routeRequest_store_growth h with h1 | ⟨h1, h2, h3, h4⟩
    · exact Or.inl h1
    · subst h1
      exact Or.inr ⟨sid, r, rfl, rfl, h3, h4, by simp [h2]⟩
  | closeSession x =>
    simp only [step] at h
    exact Or.inl (List.mem_filter.mp h).1

/-- Whenever the run of an event trace forwards a request to session
`sid`, either `sid` was live initially or an earlier event in the trace
was an initialize POST request that produced a `newSession sid`. -/
theorem run_forward_origin : ∀ (evs : List Event) (store : Store) (i : Nat) (sid : String),
    (run store evs).2.get? i = some (some (.forward sid)) →
    sid ∈ store
    ∨ ∃ j, j < i ∧ ∃ f r, evs.get? j = some (.request f r)
        ∧ r.method = "POST" ∧ r.isInit = true ∧ f = sid
        ∧ (run store evs).2.get? j = some (some (.newSession sid)) := by
  intro evs
  induction evs with
  | nil => intro store i sid h; simp [run] at h
  | cons e es ih =>
    intro store i sid h
    have hr : (run store (e :: es)).2
        = (step store e).2 :: (run (step store e).1 es).2 := rfl
    cases i with
    | zero =>
      rw [hr, List.get?_cons_zero] at h
      cases e with
      | request f r =>
        have h2 : some (some (routeRequest store f r).1)
            = some (some (RouterOutcome.forward sid)) := h
        have hfw : (routeRequest store f r).1 = .forward sid := by
          injection h2 with h2; injection h2
        exact Or.inl (routeRequest_forward_mem hfw)
      | closeSession x =>
        have h2 : (some none : Option (Option RouterOutcome))
            = some (some (.forward sid)) := h
        simp at h2
    | succ i2 =>
      rw [hr, List.get?_cons_succ] at h
      rcases ih (step store e).1 i2 sid h with h1 | ⟨j, hj, f, r, hev, hm, hi, hf, hout⟩
      · rcases step_store_growth h1 with h2 | ⟨f, r, he, hf, hm, hi, hout⟩
        · exact Or.inl h2
        · subst he
          refine Or.inr ⟨0, Nat.succ_pos _, f, r, rfl, hm, hi, hf, ?_⟩
          rw [hr, List.get?_cons_zero, hout]
      · refine Or.inr ⟨j + 1, Nat.succ_lt_succ hj, f, r, hev, hm, hi, hf, ?_⟩
        rw [hr, List.get?_cons_succ]
        exact hout

/-! ### Claim theorems -/

/-- C7: the discovery handler is a pure constant of its (unit) input:
every call returns the identical ordered list of exactly five tool
descriptors (test_connection, get_event_applications,
get_event_evaluations, get_evaluation_criteria,
get_application_questions, in that order), so two discovery calls in the
same session yield identical lists and no state changes. -/
theorem discovery_idempotent_five_tools :
    (∀ u v : Unit, listTools u = listTools v)
    ∧ (listTools ()).map (fun t => t.name)
      = ["test_connection", "get_event_applications", "get_event_evaluations",
         "get_evaluation_criteria", "get_application_questions"]
    ∧ (listTools ()).length = 5 :=
  ⟨fun _ _ => rfl, rfl, rfl⟩

/-- C4: an invocation naming a tool outside the five registered names
falls into the default switch case, whose thrown error is caught and
returned as an error-tagged result mentioning the unknown name in both
the message and the tool field, with no upstream call issued. -/
theorem unknown_tool_rejected (c : ApiClient) (fetch : Fetch) (now name : String) (args : Args)
    (h : name ∉ ["test_connection", "get_event_applications", "get_event_evaluations",
      "get_evaluation_criteria", "get_application_questions"]) :
    dispatch c fetch now name args
      = (⟨errEnvelope ("Unknown tool: " ++ name) name now, true⟩, [])
    ∧ (errEnvelope ("Unknown tool: " ++ name) name now).getField "tool"
      = some (.str name) := by
  simp only [List.mem_cons, List.not_mem_nil, or_false, not_or] at h
  obtain ⟨h1, h2, h3, h4, h5⟩ := h
  refine ⟨?_, rfl⟩
  simp [dispatch, h1, h2, h3, h4, h5]

/-- Witness for C4 at the concrete unknown name "bogus". -/
theorem unknown_tool_rejected_witness :
    dispatch cW fetchFail "T" "bogus" none
      = (⟨errEnvelope ("Unknown tool: " ++ "bogus") "bogus" "T", true⟩, []) :=
  (unknown_tool_rejected cW fetchFail "T" "bogus" none (by decide)).1

/-- C3: for each of the four tools whose schema requires `eventId`, an
argument object whose `eventId` is absent or empty makes the handler
throw `eventId is required`, which the catch turns into an error-tagged
result whose error field is exactly that message; no upstream URL is
fetched, and the result is the same whatever other (unknown) keys the
argument object carries. -/
theorem missing_eventId_rejected (c : ApiClient) (fetch : Fetch) (now name : String)
    (m : List (String × String))
    (hn : name ∈ ["get_event_applications", "get_event_evaluations",
      "get_evaluation_criteria", "get_application_questions"])
    (he : falsyEventId (m.lookup "eventId") = true) :
    dispatch c fetch now name (some m)
      = (⟨errEnvelope "eventId is required" name now, true⟩, [])
    ∧ (errEnvelope "eventId is required" name now).getField "error"
      = some (.str "eventId is required") := by
  refine ⟨?_, rfl⟩
  simp only [List.mem_cons, List.not_mem_nil, or_false] at hn
  rcases hn with h | h | h | h <;> subst h <;>
    simp [dispatch, callEventTool, he]

/-- Witness for C3: an argument object carrying only an unknown key. -/
theorem missing_eventId_rejected_witness :
    dispatch cW fetchFail "T" "get_event_applications" (some [("foo", "bar")])
      = (⟨errEnvelope "eventId is required" "get_event_applications" "T", true⟩, []) :=
  (missing_eventId_rejected cW fetchFail "T" "get_event_applications" [("foo", "bar")]
    (by decide) (by decide)).1

/-- C9: a tools/call request whose arguments field is entirely absent
(`undefined`) makes the destructuring in any eventId-requiring case
throw a TypeError, which the dispatcher's catch-all converts to an
error-tagged result; the handler is total and no exception escapes. -/
theorem absent_args_caught (c : ApiClient) (fetch : Fetch) (now name : String)
    (hn : name ∈ ["get_event_applications", "get_event_evaluations",
      "get_evaluation_criteria", "get_application_questions"]) :
    dispatch c fetch now name none
      = (⟨errEnvelope typeErrorMsg name now, true⟩, [])
    ∧ (dispatch c fetch now name none).1.isError = true := by
  have h1 : dispatch c fetch now name none
      = (⟨errEnvelope typeErrorMsg name now, true⟩, []) := by
    simp only [List.mem_cons, List.not_mem_nil, or_false] at hn
    rcases hn with h | h | h | h <;> subst h <;>
      simp [dispatch, callEventTool]
  exact ⟨h1, by rw [h1]⟩

/-- Witness for C9 at a concrete tool with absent arguments. -/
theorem absent_args_caught_witness :
    dispatch cW fetchFail "T" "get_event_evaluations" none
      = (⟨errEnvelope typeErrorMsg "get_event_evaluations" "T", true⟩, []) :=
  (absent_args_caught cW fetchFail "T" "get_event_evaluations" (by decide)).1

/-- Counterexample for C6: with `MASTRA_API_KEY` present but
`VERCEL_API_BASE_URL` entirely absent, server construction succeeds
(the constructor substitutes the default base URL); the process does not
refuse to start. -/
theorem missing_base_url_still_starts :
    FtcMcpServer.construct envKeyOnly
      = .ok { baseUrl := defaultBaseUrl, apiKey := "secret" } := rfl

/-- C6 (amended): an absent `MASTRA_API_KEY` makes server construction
throw and the process refuses to start; an absent `VERCEL_API_BASE_URL`
is instead defaulted to `http://localhost:3000/api/mastra`, and the
server starts whenever a non-empty API key is present. -/
theorem startup_config_validation (env : Env) :
    (env "MASTRA_API_KEY" = none →
      FtcMcpServer.construct env
        = .error "MASTRA_API_KEY environment variable is required")
    ∧ (∀ k, env "MASTRA_API_KEY" = some k → k ≠ "" →
        env "VERCEL_API_BASE_URL" = none →
        FtcMcpServer.construct env = .ok { baseUrl := defaultBaseUrl, apiKey := k }) := by
  constructor
  · intro h
    simp [FtcMcpServer.construct, VercelApiClient.construct, h]
  · intro k hk hne hb
    simp [FtcMcpServer.construct, VercelApiClient.construct, hk, hb, hne,
      validateConfiguration, getStatus, defaultBaseUrl]

/-- Witness for C6 (amended): the empty environment refuses to start. -/
theorem startup_config_validation_witness :
    FtcMcpServer.construct envBare
      = .error "MASTRA_API_KEY environment variable is required" :=
  (startup_config_validation envBare).1 rfl

/-- Counterexample for C10: with `VERCEL_API_BASE_URL` set to the empty
string (set, hence not nullish, so no default is substituted) and a
non-empty API key, the client constructs successfully yet `getStatus`
reports `configured = false` and an empty `baseUrl`. -/
theorem empty_base_url_unconfigured :
    VercelApiClient.construct envEmptyBase = .ok { baseUrl := "", apiKey := "k" }
    ∧ getStatus { baseUrl := "", apiKey := "k" }
      = { configured := false, baseUrl := "", hasApiKey := true } :=
  ⟨rfl, rfl⟩

/-- Every client accepted by `validateConfiguration` is configured. -/
theorem validate_ok_configured {c : ApiClient}
    (hv : validateConfiguration c = .ok ()) : (getStatus c).configured = true := by
  unfold validateConfiguration at hv
  cases hcfg : (getStatus c).configured
  · rw [hcfg] at hv; simp at hv
  · rfl

/-- C10 (amended): every successfully constructed client has
`hasApiKey = true`; `configured = true` and a non-empty `baseUrl`
additionally hold whenever `VERCEL_API_BASE_URL` is unset or set to a
non-empty string — and in every process that passed startup validation,
since `validateConfiguration` rejects unconfigured clients. -/
theorem client_status_invariant (env : Env) (c : ApiClient)
    (h : VercelApiClient.construct env = .ok c) :
    (getStatus c).hasApiKey = true
    ∧ ((∀ s, env "VERCEL_API_BASE_URL" = some s → s ≠ "") →
        (getStatus c).configured = true ∧ (getStatus c).baseUrl ≠ "")
    ∧ (validateConfiguration c = .ok () → (getStatus c).configured = true) := by
  unfold VercelApiClient.construct at h
  by_cases hk : (env "MASTRA_API_KEY").getD "" = ""
  · rw [if_pos hk] at h
    exact absurd h (by simp)
  · rw [if_neg hk] at h
    have hc : c = { baseUrl := (env "VERCEL_API_BASE_URL").getD defaultBaseUrl
                  , apiKey := (env "MASTRA_API_KEY").getD "" } := by
      injection h with h
      exact h.symm
    subst hc
    refine ⟨by simp [getStatus, hk], ?_, fun hv => validate_ok_configured hv⟩
    intro hb
    have hbu : (env "VERCEL_API_BASE_URL").getD defaultBaseUrl ≠ "" := by
      cases hbv : env "VERCEL_API_BASE_URL" with
      | none => simp [defaultBaseUrl]
      | some s => simpa using hb s hbv
    exact ⟨by simp [getStatus, hk, hbu], by simpa [getStatus] using hbu⟩

/-- Witness for C10 (amended) at a concrete environment. -/
theorem client_status_invariant_witness :
    (getStatus { baseUrl := defaultBaseUrl, apiKey := "secret" }).hasApiKey = true :=
  (client_status_invariant envKeyOnly
    { baseUrl := defaultBaseUrl, apiKey := "secret" } rfl).1

/-- Counterexample for C1: a POST initialize request carrying a session
id that is not in the store hits the router's first branch and creates a
brand-new session instead of being rejected with SessionInvalid. -/
theorem stale_init_creates_session :
    routeRequest [] "fresh" { sessionHeader := some "stale", method := "POST", isInit := true }
      = (.newSession "fresh", ["fresh"])
    ∧ (RouterOutcome.newSession "fresh") ≠ .reject 400 (-32000) sessionInvalidMsg :=
  ⟨rfl, by decide⟩

/-- C1 (amended): a request whose session id is unknown to the store —
never created or already deleted by the close handler, which removes the
id — is answered with HTTP 400, JSON-RPC code -32000 and message
"Invalid session ID or session expired", and no session is created,
unless the request is a POST initialize request (in which case the
router creates a fresh session instead). -/
theorem unknown_session_rejected (store : Store) (freshId : String) (req : HttpReq)
    (sid : String)
    (hh : req.sessionHeader = some sid) (hs : sid ≠ "")
    (hmem : sid ∉ store)
    (hni : ¬(req.method = "POST" ∧ req.isInit = true)) :
    routeRequest store freshId req = (.reject 400 (-32000) sessionInvalidMsg, store)
    ∧ (∀ st : Store, sid ∉ (step st (.closeSession sid)).1) := by
  have htr : headerTruthy req.sessionHeader = true := by
    rw [hh]; simpa [headerTruthy] using hs
  have hcon : store.contains (req.sessionHeader.getD "") = false := by
    rw [hh]; simpa using hmem
  have hfound : (headerTruthy req.sessionHeader
      && store.contains (req.sessionHeader.getD "")) = false := by
    rw [htr, hcon]; rfl
  constructor
  · unfold routeRequest
    rw [hfound]
    have hcond : ((req.method == "POST") && req.isInit) = false := by
      cases hi : req.isInit
      · simp
      · have hm2 : (req.method == "POST") = false := by
          by_cases hmm : req.method = "POST"
          · exact absurd ⟨hmm, hi⟩ hni
          · simpa using hmm
        simp [hm2]
    simp [hcond, htr]
  · intro st
    simp only [step]
    intro hmem2
    have hne := (List.mem_filter.mp hmem2).2
    simp at hne

/-- Witness for C1 (amended): a non-initialize request with an unknown
session id against a store holding a different session. -/
theorem unknown_session_rejected_witness :
    routeRequest ["a"] "fresh" { sessionHeader := some "b", method := "POST", isInit := false }
      = (.reject 400 (-32000) sessionInvalidMsg, ["a"]) :=
  (unknown_session_rejected ["a"] "fresh"
    { sessionHeader := some "b", method := "POST", isInit := false } "b"
    rfl (by decide) (by decide) (by simp)).1

/-- C2: the router enforces the two-phase handshake. Over any event
trace starting from an empty store, a non-handshake request is forwarded
to a session id only if an earlier POST initialize request produced a
`newSession` with exactly that id; and any request with no (truthy)
session header that is not an initialize request is rejected with
"No session ID provided. Initialize first." and no state change. -/
theorem two_phase_handshake :
    (∀ (evs : List Event) (i : Nat) (f : String) (req : HttpReq) (sid : String),
      evs.get? i = some (.request f req) → req.isInit = false →
      (run [] evs).2.get? i = some (some (.forward sid)) →
      ∃ j, j < i ∧ ∃ f2 r2, evs.get? j = some (.request f2 r2)
        ∧ r2.method = "POST" ∧ r2.isInit = true ∧ f2 = sid
        ∧ (run [] evs).2.get? j = some (some (.newSession sid)))
    ∧ (∀ (store : Store) (f : String) (req : HttpReq),
      headerTruthy req.sessionHeader = false → req.isInit = false →
      routeRequest store f req = (.reject 400 (-32000) sessionMissingMsg, store)) := by
  constructor
  · intro evs i f req sid _hev _hni h
    rcases run_forward_origin evs [] i sid h with h1 | ⟨j, hj, f2, r2, hev2, hm, hi, hf, hout⟩
    · simp at h1
    · exact ⟨j, hj, f2, r2, hev2, hm, hi, hf, hout⟩
  · intro store f req htr hni
    unfold routeRequest
    have hfound : (headerTruthy req.sessionHeader
        && store.contains (req.sessionHeader.getD "")) = false := by
      rw [htr]; rfl
    rw [hfound]
    simp [htr, hni]

/-- Witness for C2: in the concrete trace, the forwarded second request
is preceded by the handshake that created its session id. -/
theorem two_phase_handshake_witness :
    ∃ j, j < 1 ∧ ∃ f2 r2, evsW.get? j = some (.request f2 r2)
      ∧ r2.method = "POST" ∧ r2.isInit = true ∧ f2 = "s1"
      ∧ (run [] evsW).2.get? j = some (some (.newSession "s1")) :=
  two_phase_handshake.1 evsW 1 "x"
    { sessionHeader := some "s1", method := "POST", isInit := false } "s1" rfl rfl rfl

/-- C5: when the upstream call of any tool fails — network error,
non-2xx status, success:false payload, or success without data, all of
which surface as `makeRequest` returning an error — the dispatcher
catches it and returns an error-tagged result carrying the failure
message, the tool name and the timestamp; the exception never escapes
(`dispatch` is total) and, the dispatcher being stateless, a subsequent
invocation with a healthy upstream on the same arguments succeeds. -/
theorem upstream_failure_caught :
    (∀ (c : ApiClient) (fetch : Fetch) (now name : String)
        (m : List (String × String)) (eid msg : String),
      name ∈ ["get_event_applications", "get_event_evaluations",
        "get_evaluation_criteria", "get_application_questions"] →
      m.lookup "eventId" = some eid → eid ≠ "" →
      makeRequest c fetch (endpointFor name eid) = .error msg →
      dispatch c fetch now name (some m)
        = (⟨errEnvelope msg name now, true⟩, [c.baseUrl ++ endpointFor name eid])
      ∧ (errEnvelope msg name now).getField "error" = some (.str msg)
      ∧ (errEnvelope msg name now).getField "tool" = some (.str name)
      ∧ (errEnvelope msg name now).getField "timestamp" = some (.str now)
      ∧ ∀ (fetch2 : Fetch) (j : Json),
          makeRequest c fetch2 (endpointFor name eid) = .ok j →
          dispatch c fetch2 now name (some m)
            = (⟨j, false⟩, [c.baseUrl ++ endpointFor name eid]))
    ∧ (∀ (c : ApiClient) (fetch : Fetch) (now : String) (args : Args) (msg : String),
      makeRequest c fetch "/test" = .error msg →
      dispatch c fetch now "test_connection" args
        = (⟨errEnvelope msg "test_connection" now, true⟩, [c.baseUrl ++ "/test"])) := by
  constructor
  · intro c fetch now name m eid msg hn hm hne hfail
    simp only [List.mem_cons, List.not_mem_nil, or_false] at hn
    have hfl : falsyEventId (m.lookup "eventId") = false := by
      rw [hm]; simpa [falsyEventId] using hne
    rcases hn with h | h | h | h <;> subst h <;>
      simp only [endpointFor, String.reduceEq, reduceIte] at hfail ⊢ <;>
      refine ⟨?_, rfl, rfl, rfl, ?_⟩
    all_goals try (intro fetch2 j hok)
    all_goals simp_all [dispatch, callEventTool, getEventApplications, getEventEvaluations,
      getEvaluationCriteria, getApplicationQuestions, makeRequestTraced, falsyEventId]
  · intro c fetch now args msg hfail
    simp [dispatch, testConnection, makeRequestTraced, hfail]

/-- Witness for C5: a network-failing stub upstream on a valid
invocation. -/
theorem upstream_failure_caught_witness :
    dispatch cW fetchFail "T" "get_event_applications" (some [("eventId", "e1")])
      = (⟨errEnvelope "boom" "get_event_applications" "T", true⟩,
         [cW.baseUrl ++ endpointFor "get_event_applications" "e1"]) :=
  (upstream_failure_caught.1 cW fetchFail "T" "get_event_applications"
    [("eventId", "e1")] "e1" "boom" (by decide) rfl (by decide) rfl).1

/-- C8: a successful test_connection result, produced by the same
`dispatch` switch as the other tools, carries the upstream probe payload
(in particular its timestamp field) spread into the success object,
together with the client's configuration-health flags under `apiClient`
(configured, baseUrl, hasApiKey) and the server identification. -/
theorem test_connection_aggregates (c : ApiClient) (fetch : Fetch) (now : String)
    (args : Args) (fs : List (String × Json)) (t : Json)
    (hup : makeRequest c fetch "/test" = .ok (.obj fs))
    (ht : fs.lookup "timestamp" = some t) :
    (dispatch c fetch now "test_connection" args).1.isError = false
    ∧ (dispatch c fetch now "test_connection" args).1.text.getField "timestamp" = some t
    ∧ (dispatch c fetch now "test_connection" args).1.text.getField "apiClient"
      = some (statusJson c)
    ∧ (dispatch c fetch now "test_connection" args).1.text.getField "mcpServer"
      = some (.str "ftc-platform-mcp")
    ∧ (dispatch c fetch now "test_connection" args).2 = [c.baseUrl ++ "/test"] := by
  have hd : dispatch c fetch now "test_connection" args
      = (⟨.obj (objMerge fs
          [ ("mcpServer", .str "ftc-platform-mcp")
          , ("version", .str "1.0.0")
          , ("apiClient", statusJson c) ]), false⟩, [c.baseUrl ++ "/test"]) := by
    simp [dispatch, testConnection, makeRequestTraced, hup, spreadFields]
  rw [hd]
  refine ⟨rfl, ?_, ?_, ?_, rfl⟩
  · show (objMerge fs _).lookup "timestamp" = some t
    rw [objMerge_lookup]
    have hx : (List.lookup "timestamp"
        [ ("mcpServer", Json.str "ftc-platform-mcp")
        , ("version", Json.str "1.0.0")
        , ("apiClient", statusJson c) ]) = none := rfl
    rw [hx, Option.none_or]
    exact ht
  · show (objMerge fs _).lookup "apiClient" = some (statusJson c)
    rw [objMerge_lookup]
    rfl
  · show (objMerge fs _).lookup "mcpServer" = some (.str "ftc-platform-mcp")
    rw [objMerge_lookup]
    rfl

/-- Witness for C8: the fixed-timestamp stub upstream. -/
theorem test_connection_aggregates_witness :
    (dispatch cW fetchOk "T" "test_connection" none).1.isError = false :=
  (test_connection_aggregates cW fetchOk "T" none
    [ ("message", .str "ok"), ("timestamp", .str "2024-01-01T00:00:00.000Z") ]
    (.str "2024-01-01T00:00:00.000Z") rfl rfl).1

end FtcMcp
